import Mathlib

set_option maxHeartbeats 1000000

namespace TTTPromo

/-- Board cell, from `type Cell = 0 | 1 | 2` in src/App.tsx line 12:
`empty` = 0, `player` = 1 (player X), `bot` = 2 (bot O). -/
inductive Cell
  | empty
  | player
  | bot
  deriving DecidableEq

/-- Game status, from `type GameStatus` in src/App.tsx line 13. -/
inductive GameStatus
  | inProgress
  | win
  | lose
  | draw
  deriving DecidableEq

/-- Server move response, from `type MoveResponse` in src/App.tsx lines 15-20. -/
structure MoveResponse where
  success : Bool
  status : GameStatus
  board : List Cell
  promoCode : Option String := none
  deriving DecidableEq

/-- The JSON body of a non-ok HTTP response, as far as `postMove` inspects it
(src/App.tsx lines 68-76): the body may be absent or unparseable, or carry a
`message` field holding a single string or a list of strings. -/
inductive ErrorBody
  | absent
  | msgString (m : String)
  | msgList (ms : List String)
  deriving DecidableEq

/-- Outcome of the transport call made by `postMove`: either an ok response
carrying a `MoveResponse`, or a non-ok HTTP status with its (possibly absent)
JSON body. -/
inductive TransportResult
  | ok (r : MoveResponse)
  | fail (httpStatus : Nat) (body : ErrorBody)
  deriving DecidableEq

/-- The JSON body sent by `postMove` (src/App.tsx line 65):
`{ sessionId, board, cellIndex }`. -/
structure MoveRequest where
  sessionId : String
  board : List Cell
  cellIndex : Nat
  deriving DecidableEq

/-- The controller snapshot: the React state of `App` (src/App.tsx lines
188-195): `sessionId`, `board`, `status`, `busy`, `error`, `tgLink`. -/
structure Snapshot where
  sessionId : String
  board : List Cell
  status : GameStatus
  busy : Bool
  error : Option String
  tgLink : Option String
  deriving DecidableEq

/-- `const BOT_USERNAME = "ttt432_bot"` (src/App.tsx line 10). -/
def BOT_USERNAME : String := "ttt432_bot"

/-- Hex digit character used by percent-encoding, uppercase as produced by
JavaScript `encodeURIComponent` (`0`-`9` then `A`-`F`). -/
def hexDigit (n : Nat) : Char := Char.ofNat (if n < 10 then 48 + n else 55 + n)

/-- Numeric value of an uppercase hex digit character. -/
def hexVal (c : Char) : Nat := if 65 ≤ c.toNat then c.toNat - 55 else c.toNat - 48

/-- UTF-8 byte sequence of a code point, as used by `encodeURIComponent` to
percent-encode a non-unreserved character. -/
def utf8Bytes (n : Nat) : List Nat :=
  if n < 128 then [n]
  else if n < 2048 then [192 + n / 64, 128 + n % 64]
  else if n < 65536 then [224 + n / 4096, 128 + n / 64 % 64, 128 + n % 64]
  else [240 + n / 262144, 128 + n / 4096 % 64, 128 + n / 64 % 64, 128 + n % 64]

/-- Percent-escape of one byte: `%` followed by two uppercase hex digits. -/
def escapeByte (b : Nat) : List Char := [Char.ofNat 37, hexDigit (b / 16), hexDigit (b % 16)]

/-- Characters `encodeURIComponent` leaves unescaped:
`A-Z a-z 0-9 - _ . ! ~ * ' ( )`. -/
def isUnreservedURI (c : Char) : Bool :=
  (48 ≤ c.toNat && c.toNat ≤ 57) || (65 ≤ c.toNat && c.toNat ≤ 90) ||
  (97 ≤ c.toNat && c.toNat ≤ 122) ||
  c.toNat == 45 || c.toNat == 95 || c.toNat == 46 || c.toNat == 33 ||
  c.toNat == 126 || c.toNat == 42 || c.toNat == 39 || c.toNat == 40 || c.toNat == 41

/-- `encodeURIComponent` on one character: unreserved characters pass through,
all others are percent-escaped byte-wise in UTF-8. -/
def encodeChar (c : Char) : List Char :=
  if isUnreservedURI c then [c] else ((utf8Bytes c.toNat).map escapeByte).flatten

/-- JavaScript `encodeURIComponent` over a character list. -/
def encodeURIComponentL (cs : List Char) : List Char := (cs.map encodeChar).flatten

/-- JavaScript `encodeURIComponent` on strings, used at src/App.tsx line 212. -/
def encodeURIComponent (s : String) : String := String.mk (encodeURIComponentL s.toList)

/-- First phase of `decodeURIComponent`: replace each `%XX` escape by the byte
it denotes and every other character by its own (ASCII) byte; `none` on a
truncated escape. -/
def percentUnescape : List Char → Option (List Nat)
  | [] => some []
  | c :: rest =>
    if c.toNat = 37 then
      if 2 ≤ rest.length then
        (percentUnescape (rest.drop 2)).map
          (fun bs => (hexVal (rest.getD 0 'A') * 16 + hexVal (rest.getD 1 'A')) :: bs)
      else none
    else (percentUnescape rest).map (fun bs => c.toNat :: bs)
  termination_by cs => cs.length
  decreasing_by all_goals (simp only [List.length_drop, List.length_cons]; omega)

/-- Second phase of `decodeURIComponent`: UTF-8 decoding of the byte list,
`none` on a truncated multi-byte sequence. -/
def utf8Decode : List Nat → Option (List Char)
  | [] => some []
  | b :: rest =>
    if b < 128 then (utf8Decode rest).map (fun cs => Char.ofNat b :: cs)
    else if b < 224 then
      if 1 ≤ rest.length then
        (utf8Decode (rest.drop 1)).map
          (fun cs => Char.ofNat ((b - 192) * 64 + (rest.getD 0 0 - 128)) :: cs)
      else none
    else if b < 240 then
      if 2 ≤ rest.length then
        (utf8Decode (rest.drop 2)).map
          (fun cs =>
            Char.ofNat ((b - 224) * 4096 + (rest.getD 0 0 - 128) * 64 + (rest.getD 1 0 - 128)) :: cs)
      else none
    else
      if 3 ≤ rest.length then
        (utf8Decode (rest.drop 3)).map
          (fun cs =>
            Char.ofNat ((b - 240) * 262144 + (rest.getD 0 0 - 128) * 4096 +
              (rest.getD 1 0 - 128) * 64 + (rest.getD 2 0 - 128)) :: cs)
      else none
  termination_by bs => bs.length
  decreasing_by all_goals (simp only [List.length_drop, List.length_cons]; omega)

/-- JavaScript `decodeURIComponent` over a character list. -/
def decodeURIComponentL (cs : List Char) : Option (List Char) :=
  (percentUnescape cs).bind utf8Decode

/-- JavaScript `decodeURIComponent` on strings (`none` where the JS function
would throw `URIError`). -/
def decodeURIComponent (s : String) : Option String :=
  ((percentUnescape s.toList).bind utf8Decode).map String.mk

/-- `buildTelegramLink` (src/App.tsx lines 210-213):
a deep link with payload = sessionId. -/
def buildTelegramLink (sid : String) : String :=
  "https://t.me/" ++ BOT_USERNAME ++ "?start=" ++ encodeURIComponent sid

/-- The message `postMove` attaches to the thrown error on a non-ok response
(src/App.tsx lines 68-76): `const msg = body?.message || "HTTP " + res.status`
then `Array.isArray(msg) ? msg.join(", ") : msg`. An empty-string `message` is
falsy in JavaScript, so it also falls back to the HTTP status description. -/
def extractErrorMessage (httpStatus : Nat) : ErrorBody → String
  | ErrorBody.absent => "HTTP " ++ toString httpStatus
  | ErrorBody.msgString m =>
    if 0 < m.length then m else "HTTP " ++ toString httpStatus
  | ErrorBody.msgList ms => String.intercalate ", " ms

/-- `EmptyBoard` (src/App.tsx lines 82-84): nine empty cells. -/
def EmptyBoard : List Cell := List.replicate 9 Cell.empty

/-- The initial React state of `App` (src/App.tsx lines 188-195), with the
session identifier installed by the mount effect (lines 197-199). -/
def initialSnapshot (sid : String) : Snapshot :=
  { sessionId := sid
    board := EmptyBoard
    status := GameStatus.inProgress
    busy := false
    error := none
    tgLink := none }

/-- `canPlay` (src/App.tsx line 201): `status === "in_progress" && !busy`. -/
def canPlay (s : Snapshot) : Bool :=
  s.status == GameStatus.inProgress && !s.busy

/-- `resetGame` (src/App.tsx lines 203-208): empty board, `in_progress`
status, no error, no telegram link. `sessionId` and `busy` are not touched. -/
def resetGame (s : Snapshot) : Snapshot :=
  { s with
    board := EmptyBoard
    status := GameStatus.inProgress
    error := none
    tgLink := none }

/-- The synchronous prefix of `onCellClick` (src/App.tsx lines 215-220): the
two guards (`if (!canPlay) return; if (board[i] !== 0) return;` — an
out-of-range index also returns, since `board[i]` is then `undefined`), then
`setError(null); setBusy(true)` and the dispatch of the request
`{ sessionId, board, cellIndex: i }`. Returns the updated snapshot and the
issued request, or the unchanged snapshot and no request. -/
def beginMove (s : Snapshot) (i : Nat) : Snapshot × Option MoveRequest :=
  if !canPlay s then (s, none)
  else if !(s.board.get? i == some Cell.empty) then (s, none)
  else ({ s with error := none, busy := true },
        some { sessionId := s.sessionId, board := s.board, cellIndex := i })

/-- The continuation of `onCellClick` after the awaited transport call
(src/App.tsx lines 222-234), applied to whatever snapshot is current when the
response arrives. `sid` is the `sessionId` captured by the closure at dispatch
time. On ok: `setBoard(res.board); setStatus(res.status)` and, on `"win"`,
`setTgLink(buildTelegramLink(sessionId))`. On failure: `setError` with the
thrown message. `finally { setBusy(false) }` on both paths. -/
def settleMove (sid : String) (s : Snapshot) : TransportResult → Snapshot
  | TransportResult.ok r =>
    let s1 := { s with board := r.board, status := r.status }
    let s2 := if r.status == GameStatus.win
              then { s1 with tgLink := some (buildTelegramLink sid) } else s1
    { s2 with busy := false }
  | TransportResult.fail code body =>
    { s with error := some (extractErrorMessage code body), busy := false }

/-- A whole `onCellClick` run with no interleaving between dispatch and
response: `beginMove` followed, when a request was issued, by `settleMove` on
the transport's result. -/
def onCellClickRun (s : Snapshot) (i : Nat) (r : TransportResult) : Snapshot × Option MoveRequest :=
  match beginMove s i with
  | (s1, some q) => (settleMove s.sessionId s1 r, some q)
  | (_, none) => (s, none)

/-- `getOrCreateSessionId` (src/App.tsx lines 26-33) over an explicit store
(the `localStorage` entry under the fixed key, `none` when absent) and the
`crypto.randomUUID()` value drawn on this call. Returns the identifier and
the store after the call. A stored value passes the
`existing && existing.length > 0` test only when non-empty. -/
def getOrCreateSessionId : Option String → String → String × Option String
  | some existing, uuid =>
    if 0 < existing.length then (existing, some existing)
    else ("s_" ++ uuid, some ("s_" ++ uuid))
  | none, uuid => ("s_" ++ uuid, some ("s_" ++ uuid))

/-- Well-formedness of a transport result per the wire contract (spec section
6): an ok response carries a 9-cell board; a failure carries no board. -/
def respWF : TransportResult → Prop
  | TransportResult.ok r => r.board.length = 9
  | TransportResult.fail _ _ => True

/-- Snapshots reachable by the controller: the initial state, and closure
under `resetGame`, the synchronous prefix of `onCellClick`, and the response
continuation (with a wire-contract-conforming result). Listing the two phases
of `onCellClick` separately over-approximates the real interleavings, so an
invariant proved over `Reachable` holds in particular of every real run. -/
inductive Reachable : Snapshot → Prop
  | initStep (sid : String) : Reachable (initialSnapshot sid)
  | resetStep {s : Snapshot} : Reachable s → Reachable (resetGame s)
  | beginStep {s : Snapshot} (i : Nat) : Reachable s → Reachable (beginMove s i).1
  | settleStep {s : Snapshot} (sid : String) (r : TransportResult) :
      Reachable s → respWF r → Reachable (settleMove sid s r)

/-- A concrete winning response used to instantiate theorems: the scenario of
spec section 8 (player at index 4, bot at index 8). -/
def sampleWinResponse : MoveResponse :=
  { success := true
    status := GameStatus.win
    board := [Cell.empty, Cell.empty, Cell.empty, Cell.empty, Cell.player,
              Cell.empty, Cell.empty, Cell.empty, Cell.bot] }

/-! Helper lemmas shared by the claim theorems. -/

theorem settleMove_ok_eq (sid : String) (s : Snapshot) (res : MoveResponse) :
    settleMove sid s (TransportResult.ok res) =
      { s with
        board := res.board
        status := res.status
        busy := false
        tgLink := if res.status = GameStatus.win then some (buildTelegramLink sid)
                  else s.tgLink } := by
  rcases res with ⟨su, st, bd, pc⟩
  cases st <;> rfl

theorem settleMove_fail_eq (sid : String) (s : Snapshot) (code : Nat) (body : ErrorBody) :
    settleMove sid s (TransportResult.fail code body) =
      { s with error := some (extractErrorMessage code body), busy := false } := rfl

theorem onCellClickRun_eq (s : Snapshot) (i : Nat) (r : TransportResult) :
    onCellClickRun s i r =
      if s.status = GameStatus.inProgress ∧ s.busy = false ∧ s.board.get? i = some Cell.empty
      then (settleMove s.sessionId { s with error := none, busy := true } r,
            some { sessionId := s.sessionId, board := s.board, cellIndex := i })
      else (s, none) := by
  rcases s with ⟨sid, b, st, bu, er, li⟩
  unfold onCellClickRun beginMove canPlay
  cases st <;> cases bu <;>
    by_cases hb : b[i]? = some Cell.empty <;>
      simp [List.get?_eq_getElem?, hb]

theorem beginMove_fst_board (s : Snapshot) (i : Nat) : (beginMove s i).1.board = s.board := by
  unfold beginMove
  split
  · rfl
  · split
    · rfl
    · rfl

theorem beginMove_fst_error_of_busy (s : Snapshot) (i : Nat)
    (hb : (beginMove s i).1.busy = true) (h : s.busy = true → s.error = none) :
    (beginMove s i).1.error = none := by
  revert hb
  unfold beginMove
  split
  · exact h
  · split
    · exact h
    · intro _
      rfl

/-! The claim theorems. -/

/-- Claim C3: a transport request is issued if and only if the status is
`in_progress`, the controller is not busy, and the targeted cell is empty; the
single issued request carries the current board and the clicked index, and a
failed guard leaves the snapshot untouched and issues nothing (no error). -/
theorem move_guard_characterization (s : Snapshot) (i : Nat) (r : TransportResult) :
    onCellClickRun s i r =
      if s.status = GameStatus.inProgress ∧ s.busy = false ∧ s.board.get? i = some Cell.empty
      then (settleMove s.sessionId { s with error := none, busy := true } r,
            some { sessionId := s.sessionId, board := s.board, cellIndex := i })
      else (s, none) :=
  onCellClickRun_eq s i r

/-- Claim C4: from any prior snapshot, `resetGame` yields the all-empty
9-cell board, `in_progress` status, no error, and no reward link. -/
theorem reset_yields_fresh_state (s : Snapshot) :
    (resetGame s).board = List.replicate 9 Cell.empty ∧
    (resetGame s).status = GameStatus.inProgress ∧
    (resetGame s).error = none ∧
    (resetGame s).tgLink = none := by
  refine ⟨?_, rfl, rfl, rfl⟩
  rfl

/-- Claim C10: `resetGame` is a frame over `sessionId` and `busy` — it leaves
both unchanged from any state. -/
theorem reset_frame_sessionId_busy (s : Snapshot) :
    (resetGame s).sessionId = s.sessionId ∧ (resetGame s).busy = s.busy :=
  ⟨rfl, rfl⟩

/-- Claim C5 (the code lacks the guard the claim describes): a move on cell 4
is dispatched, `resetGame` runs while the request is in flight, and the late
winning response then overwrites the post-reset snapshot — the stale board and
`win` status replace the fresh empty board, and the reward modal link is set. -/
theorem stale_response_clobbers_reset_state :
    (beginMove (initialSnapshot "sid123") 4).2 =
      some { sessionId := "sid123", board := EmptyBoard, cellIndex := 4 } ∧
    (resetGame (beginMove (initialSnapshot "sid123") 4).1).board = EmptyBoard ∧
    (resetGame (beginMove (initialSnapshot "sid123") 4).1).busy = true ∧
    (settleMove "sid123" (resetGame (beginMove (initialSnapshot "sid123") 4).1)
      (TransportResult.ok sampleWinResponse)).board = sampleWinResponse.board ∧
    (settleMove "sid123" (resetGame (beginMove (initialSnapshot "sid123") 4).1)
      (TransportResult.ok sampleWinResponse)).board ≠ EmptyBoard ∧
    (settleMove "sid123" (resetGame (beginMove (initialSnapshot "sid123") 4).1)
      (TransportResult.ok sampleWinResponse)).status = GameStatus.win := by
  decide

/-- Claim C8: every reachable snapshot has a board of length exactly 9, under
the wire contract that every applied ok response carries a 9-cell board. -/
theorem reachable_board_length (s : Snapshot) (h : Reachable s) : s.board.length = 9 := by
  induction h with
  | initStep sid => rfl
  | resetStep _ _ => rfl
  | beginStep i _ ih => rw [beginMove_fst_board]; exact ih
  | settleStep sid r _ hwf ih =>
    cases r with
    | ok res => rw [settleMove_ok_eq]; exact hwf
    | fail code body => rw [settleMove_fail_eq]; exact ih

/-- Claim C8 witness: the initial snapshot is reachable and its board has
length 9. -/
theorem reachable_board_length_witness : (initialSnapshot "x").board.length = 9 :=
  reachable_board_length _ (Reachable.initStep "x")

/-- Claim C9: an accepted move clears the error before dispatch, so in every
reachable snapshot `busy = true` implies `error = none`. -/
theorem busy_implies_no_error (s : Snapshot) (h : Reachable s) :
    s.busy = true → s.error = none := by
  induction h with
  | initStep sid => intro hb; cases hb
  | resetStep _ _ => intro _; rfl
  | beginStep i _ ih => exact fun hb => beginMove_fst_error_of_busy _ i hb ih
  | settleStep sid r _ _ ih =>
    cases r with
    | ok res => rw [settleMove_ok_eq]; intro hb; cases hb
    | fail code body => rw [settleMove_fail_eq]; intro hb; cases hb

/-- Claim C9 witness: after an accepted click on the initial snapshot the
controller is busy and carries no error message. -/
theorem busy_implies_no_error_witness :
    ((beginMove (initialSnapshot "x") 0).1).busy = true ∧
    ((beginMove (initialSnapshot "x") 0).1).error = none :=
  ⟨by decide,
   busy_implies_no_error _ (Reachable.beginStep 0 (Reachable.initStep "x")) (by decide)⟩

/-- Claim C1: on an accepted move whose transport call succeeds with `res`,
the snapshot's board and status become `res.board` and `res.status` verbatim;
on `win` the reward link built from the current session identifier is stored,
and on any other status the reward link is left unset. -/
theorem move_success_applies_response (s : Snapshot) (i : Nat) (res : MoveResponse)
    (h : s.status = GameStatus.inProgress ∧ s.busy = false ∧
         s.board.get? i = some Cell.empty) :
    ((onCellClickRun s i (TransportResult.ok res)).1).board = res.board ∧
    ((onCellClickRun s i (TransportResult.ok res)).1).status = res.status ∧
    (res.status = GameStatus.win →
      ((onCellClickRun s i (TransportResult.ok res)).1).tgLink =
        some (buildTelegramLink s.sessionId)) ∧
    (res.status ≠ GameStatus.win →
      ((onCellClickRun s i (TransportResult.ok res)).1).tgLink = s.tgLink) := by
  rw [onCellClickRun_eq, if_pos h]
  rw [settleMove_ok_eq]
  refine ⟨rfl, rfl, fun hw => ?_, fun hw => ?_⟩
  · simp [hw]
  · simp [hw]

/-- Claim C1 witness: on the initial snapshot, clicking cell 4 with a winning
response yields that response's board, `win` status, and the reward link. -/
theorem move_success_applies_response_witness :
    ((onCellClickRun (initialSnapshot "abc") 4 (TransportResult.ok sampleWinResponse)).1).board =
      sampleWinResponse.board ∧
    ((onCellClickRun (initialSnapshot "abc") 4 (TransportResult.ok sampleWinResponse)).1).status =
      GameStatus.win ∧
    ((onCellClickRun (initialSnapshot "abc") 4 (TransportResult.ok sampleWinResponse)).1).tgLink =
      some (buildTelegramLink "abc") := by
  have h := move_success_applies_response (initialSnapshot "abc") 4 sampleWinResponse
    ⟨rfl, rfl, by decide⟩
  exact ⟨h.1, h.2.1.trans rfl, h.2.2.1 rfl⟩

/-- Claim C2 counterexample: with an HTTP 400 failure whose body is
`{message: ""}`, the code stores `"HTTP 400"`, not the body's message string
`""` as the claim requires (an empty `message` is falsy in JavaScript, so the
`body?.message || ...` fallback fires). -/
theorem move_failure_message_counterexample :
    ((onCellClickRun (initialSnapshot "x") 0
        (TransportResult.fail 400 (ErrorBody.msgString ""))).1).error = some "HTTP 400" ∧
    ((onCellClickRun (initialSnapshot "x") 0
        (TransportResult.fail 400 (ErrorBody.msgString ""))).1).error ≠ some "" := by
  decide

/-- Claim C2 (amended): on an accepted move whose transport call fails, the
board, status and reward link keep their pre-submission values, `busy` is
false, and the error message is the body's message string when non-empty, the
joined list of message strings, and the HTTP-status fallback when the body is
absent, unparseable, or carries an empty message string. -/
theorem move_failure_preserves_state (s : Snapshot) (i : Nat) (code : Nat) (body : ErrorBody)
    (h : s.status = GameStatus.inProgress ∧ s.busy = false ∧
         s.board.get? i = some Cell.empty) :
    ((onCellClickRun s i (TransportResult.fail code body)).1).board = s.board ∧
    ((onCellClickRun s i (TransportResult.fail code body)).1).status = s.status ∧
    ((onCellClickRun s i (TransportResult.fail code body)).1).tgLink = s.tgLink ∧
    ((onCellClickRun s i (TransportResult.fail code body)).1).busy = false ∧
    ((onCellClickRun s i (TransportResult.fail code body)).1).error =
      some (extractErrorMessage code body) ∧
    (∀ m : String, body = ErrorBody.msgString m → 0 < m.length →
      extractErrorMessage code body = m) ∧
    (∀ ms : List String, body = ErrorBody.msgList ms →
      extractErrorMessage code body = String.intercalate ", " ms) ∧
    (body = ErrorBody.absent → extractErrorMessage code body = "HTTP " ++ toString code) ∧
    (body = ErrorBody.msgString "" → extractErrorMessage code body = "HTTP " ++ toString code) := by
  rw [onCellClickRun_eq, if_pos h, settleMove_fail_eq]
  refine ⟨rfl, h.1.symm ▸ rfl, rfl, rfl, rfl, ?_, ?_, ?_, ?_⟩
  · intro m hm hlen
    subst hm
    simp [extractErrorMessage, hlen]
  · intro ms hm
    subst hm
    rfl
  · intro hm
    subst hm
    rfl
  · intro hm
    subst hm
    rfl

/-- Claim C2 witness: on the initial snapshot, a click on cell 0 failing with
HTTP 400 and body `{message: ["a", "b"]}` leaves the board empty, clears busy,
and stores the joined message. -/
theorem move_failure_preserves_state_witness :
    ((onCellClickRun (initialSnapshot "x") 0
        (TransportResult.fail 400 (ErrorBody.msgList ["a", "b"]))).1).board = EmptyBoard ∧
    ((onCellClickRun (initialSnapshot "x") 0
        (TransportResult.fail 400 (ErrorBody.msgList ["a", "b"]))).1).busy = false ∧
    ((onCellClickRun (initialSnapshot "x") 0
        (TransportResult.fail 400 (ErrorBody.msgList ["a", "b"]))).1).error = some "a, b" := by
  have h := move_failure_preserves_state (initialSnapshot "x") 0 400
    (ErrorBody.msgList ["a", "b"]) ⟨rfl, rfl, by decide⟩
  exact ⟨h.1, h.2.2.2.1, h.2.2.2.2.1.trans (by decide)⟩

/-- Claim C7 counterexample: when the store holds the empty string, the code
does not return the stored value unchanged — the
`existing && existing.length > 0` test fails, so a fresh identifier is
generated and written. -/
theorem getOrCreateSessionId_empty_counterexample :
    (getOrCreateSessionId (some "") "u").1 ≠ "" ∧
    (getOrCreateSessionId (some "") "u").2 ≠ some "" := by
  decide

/-- Claim C7 (amended): a stored non-empty identifier is returned unchanged
without writing; a second call against the store left by a first call returns
the identical identifier and leaves the store unchanged; and two calls against
a cleared store with distinct fresh UUIDs return distinct identifiers. -/
theorem getOrCreateSessionId_idempotent (st : Option String) (u1 u2 : String) :
    (∀ e : String, st = some e → 0 < e.length → getOrCreateSessionId st u1 = (e, st)) ∧
    getOrCreateSessionId (getOrCreateSessionId st u1).2 u2 =
      ((getOrCreateSessionId st u1).1, (getOrCreateSessionId st u1).2) ∧
    (u1 ≠ u2 → (getOrCreateSessionId none u1).1 ≠ (getOrCreateSessionId none u2).1) := by
  have hfresh : ∀ u : String, 0 < ("s_" ++ u).length := by
    intro u
    rw [String.length_append]
    have h2 : ("s_" : String).length = 2 := rfl
    omega
  refine ⟨?_, ?_, ?_⟩
  · intro e he hlen
    subst he
    simp [getOrCreateSessionId, hlen]
  · rcases st with _ | e
    · simp [getOrCreateSessionId, hfresh u1]
      intro h2
      exact absurd h2 (by decide)
    · by_cases hlen : 0 < e.length
      · simp [getOrCreateSessionId, hlen]
      · simp [getOrCreateSessionId, hlen, hfresh u1]
        intro h2
        exact absurd h2 (by decide)
  · intro hne heq
    apply hne
    have h2 := congrArg String.data heq
    simp only [getOrCreateSessionId, String.data_append] at h2
    exact String.ext (List.append_cancel_left h2)

/-- Claim C7 witness: a stored non-empty identifier is returned unchanged, and
distinct fresh UUIDs on a cleared store give distinct identifiers. -/
theorem getOrCreateSessionId_idempotent_witness :
    getOrCreateSessionId (some "abc") "u1" = ("abc", some "abc") ∧
    (getOrCreateSessionId none "u1").1 ≠ (getOrCreateSessionId none "u2").1 :=
  ⟨(getOrCreateSessionId_idempotent (some "abc") "u1" "u2").1 "abc" rfl (by decide),
   (getOrCreateSessionId_idempotent none "u1" "u2").2.2 (by decide)⟩

/-! Percent-encoding round-trip development for claim C6. -/

theorem char_toNat_lt (c : Char) : c.toNat < 1114112 := by
  have he : c.toNat = c.val.toNat := rfl
  rcases c.valid with h | ⟨h1, h2⟩ <;> omega

theorem hexVal_hexDigit : ∀ n, n < 16 → hexVal (hexDigit n) = n := by decide

theorem toNat_hexDigit_ne : ∀ n, n < 16 → (hexDigit n).toNat ≠ 37 := by decide

theorem utf8Bytes_lt (n : Nat) (hn : n < 1114112) : ∀ b ∈ utf8Bytes n, b < 256 := by
  unfold utf8Bytes
  split
  · intro b hb
    simp only [List.mem_singleton] at hb
    omega
  · split
    · intro b hb
      simp only [List.mem_cons, List.not_mem_nil, or_false] at hb
      rcases hb with hb | hb <;> omega
    · split
      · intro b hb
        simp only [List.mem_cons, List.not_mem_nil, or_false] at hb
        rcases hb with hb | hb | hb <;> omega
      · intro b hb
        simp only [List.mem_cons, List.not_mem_nil, or_false] at hb
        rcases hb with hb | hb | hb | hb <;> omega

theorem percentUnescape_escapeByte (b : Nat) (hb : b < 256) (rest : List Char) :
    percentUnescape (escapeByte b ++ rest) =
      (percentUnescape rest).map (fun bs => b :: bs) := by
  have h37 : (Char.ofNat 37).toNat = 37 := by decide
  have hd1 : hexVal (hexDigit (b / 16)) = b / 16 := hexVal_hexDigit _ (by omega)
  have hd2 : hexVal (hexDigit (b % 16)) = b % 16 := hexVal_hexDigit _ (by omega)
  simp [escapeByte, percentUnescape, h37]
  simp only [hd1, hd2, show b / 16 * 16 + b % 16 = b from by omega]

theorem unreserved_toNat_ne (c : Char) (h : isUnreservedURI c = true) : c.toNat ≠ 37 := by
  intro heq
  unfold isUnreservedURI at h
  rw [heq] at h
  exact absurd h (by decide)

theorem unreserved_toNat_lt (c : Char) (h : isUnreservedURI c = true) : c.toNat < 128 := by
  unfold isUnreservedURI at h
  simp only [Bool.or_eq_true, Bool.and_eq_true, decide_eq_true_eq, beq_iff_eq] at h
  omega

theorem percentUnescape_cons_unreserved (c : Char) (h : isUnreservedURI c = true)
    (rest : List Char) :
    percentUnescape (c :: rest) = (percentUnescape rest).map (fun bs => c.toNat :: bs) := by
  simp [percentUnescape, unreserved_toNat_ne c h]

theorem percentUnescape_escapes (bs : List Nat) (h : ∀ b ∈ bs, b < 256) (rest : List Char) :
    percentUnescape ((bs.map escapeByte).flatten ++ rest) =
      (percentUnescape rest).map (fun t => bs ++ t) := by
  induction bs with
  | nil => simp
  | cons b bs ih =>
    simp only [List.map_cons, List.flatten_cons, List.append_assoc]
    rw [percentUnescape_escapeByte b (h b (by simp)) _]
    rw [ih (fun x hx => h x (by simp [hx]))]
    rw [Option.map_map]
    rfl

theorem percentUnescape_encode (cs : List Char) :
    percentUnescape (encodeURIComponentL cs) =
      some ((cs.map (fun c => utf8Bytes c.toNat)).flatten) := by
  induction cs with
  | nil => simp [encodeURIComponentL, percentUnescape]
  | cons c cs ih =>
    simp only [encodeURIComponentL, List.map_cons, List.flatten_cons] at ih ⊢
    by_cases hu : isUnreservedURI c
    · have hc : encodeChar c = [c] := by simp [encodeChar, hu]
      have hb : utf8Bytes c.toNat = [c.toNat] := by
        unfold utf8Bytes
        rw [if_pos (unreserved_toNat_lt c hu)]
      rw [hc, List.singleton_append, percentUnescape_cons_unreserved c hu, ih, hb]
      rfl
    · have hc : encodeChar c = ((utf8Bytes c.toNat).map escapeByte).flatten := by
        simp [encodeChar, hu]
      rw [hc, percentUnescape_escapes _ (utf8Bytes_lt _ (char_toNat_lt c)), ih]
      rfl

theorem utf8Decode_append (c : Char) (bs : List Nat) :
    utf8Decode (utf8Bytes c.toNat ++ bs) = (utf8Decode bs).map (fun cs => c :: cs) := by
  have hv := char_toNat_lt c
  rcases Nat.lt_or_ge c.toNat 128 with h1 | h1
  · have e : utf8Bytes c.toNat = [c.toNat] := by
      unfold utf8Bytes
      rw [if_pos h1]
    rw [e, List.singleton_append]
    simp [utf8Decode, h1, Char.ofNat_toNat]
  · rcases Nat.lt_or_ge c.toNat 2048 with h2 | h2
    · have e : utf8Bytes c.toNat = [192 + c.toNat / 64, 128 + c.toNat % 64] := by
        unfold utf8Bytes
        rw [if_neg (by omega), if_pos h2]
      have hb1 : ¬(192 + c.toNat / 64 < 128) := by omega
      have hb2 : 192 + c.toNat / 64 < 224 := by omega
      rw [e, List.cons_append, List.cons_append, List.nil_append]
      simp [utf8Decode, hb1, hb2]
      simp only [show c.toNat / 64 * 64 + c.toNat % 64 = c.toNat from by omega,
        Char.ofNat_toNat]
    · rcases Nat.lt_or_ge c.toNat 65536 with h3 | h3
      · have e : utf8Bytes c.toNat =
            [224 + c.toNat / 4096, 128 + c.toNat / 64 % 64, 128 + c.toNat % 64] := by
          unfold utf8Bytes
          rw [if_neg (by omega), if_neg (by omega), if_pos h3]
        have hb1 : ¬(224 + c.toNat / 4096 < 128) := by omega
        have hb2 : ¬(224 + c.toNat / 4096 < 224) := by omega
        have hb3 : 224 + c.toNat / 4096 < 240 := by omega
        rw [e, List.cons_append, List.cons_append, List.cons_append, List.nil_append]
        simp [utf8Decode, hb1, hb2, hb3]
        simp only [show c.toNat / 4096 * 4096 + c.toNat / 64 % 64 * 64 + c.toNat % 64 = c.toNat
          from by omega, Char.ofNat_toNat]
      · have e : utf8Bytes c.toNat =
            [240 + c.toNat / 262144, 128 + c.toNat / 4096 % 64, 128 + c.toNat / 64 % 64,
             128 + c.toNat % 64] := by
          unfold utf8Bytes
          rw [if_neg (by omega), if_neg (by omega), if_neg (by omega)]
        have hb1 : ¬(240 + c.toNat / 262144 < 128) := by omega
        have hb2 : ¬(240 + c.toNat / 262144 < 224) := by omega
        have hb3 : ¬(240 + c.toNat / 262144 < 240) := by omega
        rw [e, List.cons_append, List.cons_append, List.cons_append, List.cons_append,
          List.nil_append]
        simp [utf8Decode, hb1, hb2, hb3]
        simp only [show c.toNat / 262144 * 262144 + c.toNat / 4096 % 64 * 4096 +
            c.toNat / 64 % 64 * 64 + c.toNat % 64 = c.toNat from by omega, Char.ofNat_toNat]

theorem utf8Decode_encodeAll (cs : List Char) :
    utf8Decode ((cs.map (fun c => utf8Bytes c.toNat)).flatten) = some cs := by
  induction cs with
  | nil => simp [utf8Decode]
  | cons c cs ih =>
    simp only [List.map_cons, List.flatten_cons]
    rw [utf8Decode_append, ih]
    rfl

theorem decode_encode_roundtrip (s : String) :
    decodeURIComponent (encodeURIComponent s) = some s := by
  unfold decodeURIComponent encodeURIComponent
  rw [show (String.mk (encodeURIComponentL s.toList)).toList = encodeURIComponentL s.toList
    from rfl]
  rw [percentUnescape_encode]
  rw [show (some ((s.toList.map (fun c => utf8Bytes c.toNat)).flatten)).bind utf8Decode =
    utf8Decode ((s.toList.map (fun c => utf8Bytes c.toNat)).flatten) from rfl]
  rw [utf8Decode_encodeAll]
  rfl

/-- Claim C6: `buildTelegramLink` is the fixed bot deep-link template with the
session identifier percent-encoded as the start payload, and percent-decoding
the encoded payload recovers the identifier exactly (`buildTelegramLink` is a
plain function of its argument, hence deterministic and side-effect free). -/
theorem buildTelegramLink_roundtrip (sid : String) :
    buildTelegramLink sid = "https://t.me/ttt432_bot?start=" ++ encodeURIComponent sid ∧
    decodeURIComponent (encodeURIComponent sid) = some sid :=
  ⟨rfl, decode_encode_roundtrip sid⟩

end TTTPromo
